import Mathlib

/-!
Verification development for the hydration-reminder notification engine
(backend/models/User.js, backend/models/Subscription.js,
backend/cron/notifications.js, backend/utils/webPush.js).

The JavaScript functions are shallowly embedded as executable Lean
functions; machine-level JS numbers that can be NaN are modelled as
`Option Int` with `none` standing for NaN, and nullable fields as
`Option` types.
-/

namespace Hydration

/-- The `notificationFrequency` enum of the user schema
(`['1min', '30min', '1hr', '2hr']` in User.js). -/
inductive Frequency
  | oneMin
  | thirtyMin
  | oneHr
  | twoHr
deriving DecidableEq, Repr

/-- The slice of the user document read by
`shouldReceiveNotificationAtHour` (User.js): the master switch, the
window hours and the frequency.  The schema constrains the hours to
0..23 and the frequency to the four enum values with default `1hr`,
so the field is modelled as total. -/
structure UserPref where
  notificationsEnabled : Bool
  notificationStartHour : Nat
  notificationEndHour : Nat
  notificationFrequency : Frequency
deriving DecidableEq, Repr

/-- The window test of `shouldReceiveNotificationAtHour`
(User.js lines 139-152): `endHour == 0` means the window runs from
`startHour` through hour 23; `startHour <= endHour` is a same-day
inclusive range; otherwise the window wraps across midnight. -/
def withinTimeWindow (startHour endHour currentHour : Nat) : Bool :=
  if endHour = 0 then
    decide (currentHour ≥ startHour) && decide (currentHour < 24)
  else if startHour ≤ endHour then
    decide (currentHour ≥ startHour) && decide (currentHour ≤ endHour)
  else
    decide (currentHour ≥ startHour) || decide (currentHour ≤ endHour)

/-- Embedding of `userSchema.methods.shouldReceiveNotificationAtHour`
(User.js lines 130-186).  `isTestMode` selects the accelerated
minute-based frequency rules; production mode uses the hour/minute
boundary rules. -/
def shouldReceiveNotificationAtHour (u : UserPref)
    (currentHour currentMinute : Nat) (isTestMode : Bool) : Bool :=
  if !u.notificationsEnabled then
    false
  else if !withinTimeWindow u.notificationStartHour u.notificationEndHour currentHour then
    false
  else if isTestMode then
    match u.notificationFrequency with
    | .oneMin => true
    | .thirtyMin => currentMinute % 30 == 0
    | .twoHr => currentMinute % 120 == 0
    | .oneHr => currentMinute % 60 == 0
  else
    match u.notificationFrequency with
    | .oneMin => currentMinute == 0
    | .thirtyMin => currentMinute == 0 || currentMinute == 30
    | .twoHr => currentHour % 2 == 0 && currentMinute == 0
    | .oneHr => currentMinute == 0

/-- The per-subscription selection predicate of `sendHydrationReminders`
(cron/notifications.js lines 42-60): the tick resolves `currentHour` and
`currentMinute` from the wall clock, but the minute actually passed to
the due check is `isTestMode ? currentMinute : 0` (line 49: "For test
mode, pass current minute; for production, pass 0 (top of hour)"). -/
def sendHydrationRemindersSelects (isTestMode : Bool) (u : UserPref)
    (currentHour currentMinute : Nat) : Bool :=
  let checkMinute := if isTestMode then currentMinute else 0
  shouldReceiveNotificationAtHour u currentHour checkMinute isTestMode

/-- A user with notifications enabled, window 9..17 and frequency
`30min`, used as a concrete input for the production-tick claims. -/
def user30min : UserPref :=
  { notificationsEnabled := true
    notificationStartHour := 9
    notificationEndHour := 17
    notificationFrequency := .thirtyMin }

/-- A user with notifications enabled, window 9..17 and frequency
`2hr`, used as a concrete input for the test-mode frequency claims. -/
def user2hr : UserPref :=
  { notificationsEnabled := true
    notificationStartHour := 9
    notificationEndHour := 17
    notificationFrequency := .twoHr }

/-- A user with the wrapped window 22..2 and frequency `1hr`. -/
def userWrap : UserPref :=
  { notificationsEnabled := true
    notificationStartHour := 22
    notificationEndHour := 2
    notificationFrequency := .oneHr }

/-- A user with window start 5 and end 0 (midnight) and frequency `1hr`. -/
def userMidnightEnd : UserPref :=
  { notificationsEnabled := true
    notificationStartHour := 5
    notificationEndHour := 0
    notificationFrequency := .oneHr }

/-- The mutable fields of a subscription document touched by
`markAsFailed` and `markAsSuccessful` (Subscription.js).
`failedAttempts` is a JS number that can be NaN, modelled as
`Option Int` with `none` standing for NaN; `lastError` and
`lastNotificationSent` are nullable. -/
structure Subscription where
  isActive : Bool
  failedAttempts : Option Int
  lastError : Option String
  lastNotificationSent : Option Nat
deriving DecidableEq, Repr

/-- Embedding of `subscriptionSchema.methods.markAsFailed`
(Subscription.js lines 91-103): normalise a NaN counter to 0, add 1,
record the error, and deactivate when the new count reaches 5. -/
def markAsFailed (errorMessage : String) (s : Subscription) : Subscription :=
  let normalised : Int := match s.failedAttempts with
    | none => 0
    | some n => n
  let fa := normalised + 1
  { s with
      failedAttempts := some fa
      lastError := some errorMessage
      isActive := if fa ≥ 5 then false else s.isActive }

/-- Embedding of `subscriptionSchema.methods.markAsSuccessful`
(Subscription.js lines 108-115): stamp the send time, zero the failure
counter, clear the error and reactivate.  `now` is the wall-clock
timestamp `new Date()`. -/
def markAsSuccessful (now : Nat) (s : Subscription) : Subscription :=
  { s with
      lastNotificationSent := some now
      failedAttempts := some 0
      lastError := none
      isActive := true }

/-- A fresh subscription as created by the schema defaults:
`isActive = true`, `failedAttempts = 0`, no error, nothing sent. -/
def freshSubscription : Subscription :=
  { isActive := true
    failedAttempts := some 0
    lastError := none
    lastNotificationSent := none }

/-- `k` consecutive `markAsFailed` calls with a fixed error message. -/
def iterateFailed (errorMessage : String) : Nat → Subscription → Subscription
  | 0, s => s
  | k + 1, s => markAsFailed errorMessage (iterateFailed errorMessage k s)

/-- The scheduler's module-level state in cron/notifications.js:
the two job handles `cronJob` and `testCronJob`.  A handle is modelled
as the `isTestMode` flag baked into the job's tick callback
(`start` always schedules `() => sendHydrationReminders(false)`). -/
structure SchedulerState where
  cronJob : Option Bool
  testCronJob : Option Bool
deriving DecidableEq, Repr

/-- The `Stopped` state: no job scheduled. -/
def stoppedScheduler : SchedulerState :=
  { cronJob := none, testCronJob := none }

/-- Embedding of `start` (cron/notifications.js lines 204-225).  The
JSDoc declares a `testMode` parameter but the function itself accepts
none, so any argument at a call site is discarded; `start` is a no-op
when `cronJob` already exists, and otherwise schedules the cron with
callback `() => sendHydrationReminders(false)`. -/
def start (s : SchedulerState) : SchedulerState :=
  if s.cronJob.isSome then s
  else { s with cronJob := some false }

/-- Embedding of `stop` (cron/notifications.js lines 230-250):
destroys both job handles when present. -/
def stop (_ : SchedulerState) : SchedulerState :=
  { cronJob := none, testCronJob := none }

/-- Embedding of `startTestMode` (cron/notifications.js lines 285-294)
outside production `NODE_ENV`: `stop()` then `start(true)` — the
argument `true` is discarded because `start` takes no parameter. -/
def startTestMode (s : SchedulerState) : SchedulerState :=
  start (stop s)

/-- The shape returned by `getStatus`
(cron/notifications.js lines 255-267), restricted to the running
flags. -/
structure SchedulerStatus where
  productionIsRunning : Bool
  testIsRunning : Bool
deriving DecidableEq, Repr

/-- Embedding of `getStatus`: a ticker is reported running exactly when
its handle exists (a live handle's `getStatus()` is `'scheduled'`). -/
def getStatus (s : SchedulerState) : SchedulerStatus :=
  { productionIsRunning := s.cronJob.isSome
    testIsRunning := s.testCronJob.isSome }

/-- One push-transport interaction for a subscription
(`webpush.sendNotification` inside utils/webPush.js): the transport
either delivers and reports a status code, or throws/rejects with an
error message and an optional status code. -/
inductive TransportReply
  | delivered (statusCode : Nat)
  | threw (message : String) (statusCode : Option Nat)
deriving DecidableEq, Repr

/-- The value `sendNotification` resolves with
(utils/webPush.js lines 360-398): a success record with the transport
status, or a failure record carrying the error message. -/
structure SendResult where
  success : Bool
  statusCode : Option Nat
  error : Option String
deriving DecidableEq, Repr

/-- Embedding of `sendNotification` (utils/webPush.js lines 360-398).
The whole body sits in a try/catch, so the function is total: missing
VAPID keys become a failure outcome, a transport throw/reject becomes a
failure outcome with the error's message, and a delivery becomes a
success outcome with the status code. -/
def sendNotification {Sub : Type} (transport : Sub → TransportReply)
    (vapidConfigured : Bool) (sub : Sub) : SendResult :=
  if !vapidConfigured then
    { success := false
      statusCode := none
      error := some "VAPID keys not configured" }
  else
    match transport sub with
    | .delivered code =>
        { success := true, statusCode := some code, error := none }
    | .threw msg code =>
        { success := false, statusCode := code, error := some msg }

/-- Embedding of `sendBulkNotifications`
(utils/webPush.js lines 407-435): one `sendNotification` per
subscription, settled with `Promise.allSettled`, and mapped back to a
`{subscription, result}` pair per input subscription in order. -/
def sendBulkNotifications {Sub : Type} (transport : Sub → TransportReply)
    (vapidConfigured : Bool) (subs : List Sub) : List (Sub × SendResult) :=
  subs.map fun sub => (sub, sendNotification transport vapidConfigured sub)

end Hydration

/-- C1: the production cron fires every minute and the tick passes
minute 0 to the frequency rule regardless of the actual minute, so at
wall-clock time 10:15 an in-window `30min` user IS selected, even
though the production frequency rule evaluated at the actual minute 15
returns false.  This evaluates the code at the failing input of the
claim "selected exactly when the current minute is 0 or 30". -/
theorem sendHydrationReminders_selects_30min_user_at_minute_15 :
    Hydration.sendHydrationRemindersSelects false Hydration.user30min 10 15 = true
    ∧ Hydration.shouldReceiveNotificationAtHour Hydration.user30min 10 15 false = false := by
  decide

/-- C3 counterexample: at minute 0 the test-mode `2hr` rule
`minute % 120 == 0` holds (0 % 120 = 0), so an in-window `2hr` user IS
due on a test-mode tick at minute 0 — the claim "never due on any
test-mode tick" is false. -/
theorem testMode_2hr_due_at_minute_0 :
    Hydration.shouldReceiveNotificationAtHour Hydration.user2hr 10 0 true = true := by
  decide

/-- C3 (amended): on a test-mode tick, an in-window `2hr` user is due
exactly when the minute is 0; for every minute in 1..59 the rule
`minute % 120 == 0` evaluates to false. -/
theorem testMode_2hr_due_iff_minute_0 :
    ∀ m : Fin 60,
      Hydration.shouldReceiveNotificationAtHour Hydration.user2hr 10 m.val true
        = decide (m.val = 0) := by
  decide

/-- C6: for the wrapped window 22..2 with frequency `1hr` at minute 0,
the due check is true exactly at hours 22, 23, 0, 1, 2 and false at
every hour from 3 through 21, in both tick modes. -/
theorem window_wrap_22_to_2 :
    ∀ (mode : Bool) (h : Fin 24),
      Hydration.shouldReceiveNotificationAtHour Hydration.userWrap h.val 0 mode
        = decide (22 ≤ h.val ∨ h.val ≤ 2) := by
  decide

/-- C7: with `windowEndHour = 0` the window runs from `windowStartHour`
through hour 23 and excludes hour 0: for start 5 and frequency `1hr`,
the due check at minute 0 is true at hour 23 and false at hour 0. -/
theorem midnight_end_window_5_to_0 :
    Hydration.shouldReceiveNotificationAtHour Hydration.userMidnightEnd 23 0 false = true
    ∧ Hydration.shouldReceiveNotificationAtHour Hydration.userMidnightEnd 0 0 false = false := by
  decide

/-- C9: when `notificationsEnabled` is false the due check returns
false for every hour, every minute, every frequency and both tick
modes. -/
theorem disabled_never_due (u : Hydration.UserPref)
    (hu : u.notificationsEnabled = false)
    (hour minute : Nat) (mode : Bool) :
    Hydration.shouldReceiveNotificationAtHour u hour minute mode = false := by
  simp [Hydration.shouldReceiveNotificationAtHour, hu]

/-- C2: evaluating the code at the failing input.  Calling
`startTestMode()` from the `Stopped` state leaves `testCronJob` unset —
`getStatus` reports the test ticker as NOT running — and the job that
was scheduled ticks with `isTestMode = false` (production semantics),
because `start` discards the `true` argument passed by
`startTestMode`. -/
theorem startTestMode_from_stopped_starts_production :
    Hydration.getStatus (Hydration.startTestMode Hydration.stoppedScheduler)
      = { productionIsRunning := true, testIsRunning := false }
    ∧ (Hydration.startTestMode Hydration.stoppedScheduler).cronJob = some false := by
  decide

/-- C4: from a fresh subscription, each of the first 4 `markAsFailed`
calls leaves `isActive` true, and the 5th call flips it to false — the
transition happens exactly once, on the 5th call. -/
theorem deactivation_on_fifth_failure :
    (∀ k : Fin 5,
      (Hydration.iterateFailed "err" k.val Hydration.freshSubscription).isActive = true)
    ∧ (Hydration.iterateFailed "err" 5 Hydration.freshSubscription).isActive = false := by
  decide

/-- C8: `markAsSuccessful` sends every prior state to
`failedAttempts = 0`, `lastError = null`, `isActive = true`, so a
second application leaves those three fields unchanged. -/
theorem markAsSuccessful_idempotent_on_tracked_fields
    (s : Hydration.Subscription) (now : Nat) :
    (Hydration.markAsSuccessful now s).failedAttempts = some 0
    ∧ (Hydration.markAsSuccessful now s).lastError = none
    ∧ (Hydration.markAsSuccessful now s).isActive = true
    ∧ ∀ later : Nat,
        (Hydration.markAsSuccessful later (Hydration.markAsSuccessful now s)).failedAttempts
            = (Hydration.markAsSuccessful now s).failedAttempts
        ∧ (Hydration.markAsSuccessful later (Hydration.markAsSuccessful now s)).lastError
            = (Hydration.markAsSuccessful now s).lastError
        ∧ (Hydration.markAsSuccessful later (Hydration.markAsSuccessful now s)).isActive
            = (Hydration.markAsSuccessful now s).isActive := by
  simp [Hydration.markAsSuccessful]

/-- C10: `markAsFailed` is total in `failedAttempts` — a NaN counter
(modelled as `none`) is normalised to 0 before the increment, so when
the prior counter is NaN or a nonnegative number, the new counter is a
well-defined integer `k ≥ 1` and the deactivation test is the ordinary
comparison `k ≥ 5` (never skipped by NaN propagation). -/
theorem markAsFailed_total_in_failedAttempts
    (s : Hydration.Subscription) (e : String)
    (h : s.failedAttempts = none ∨ ∃ n : Int, 0 ≤ n ∧ s.failedAttempts = some n) :
    ∃ k : Int, 1 ≤ k
      ∧ (Hydration.markAsFailed e s).failedAttempts = some k
      ∧ (Hydration.markAsFailed e s).isActive
          = (if k ≥ 5 then false else s.isActive) := by
  rcases h with h | ⟨n, hn, h⟩
  · exact ⟨1, by omega, by simp [Hydration.markAsFailed, h],
      by simp [Hydration.markAsFailed, h]⟩
  · exact ⟨n + 1, by omega, by simp [Hydration.markAsFailed, h],
      by simp [Hydration.markAsFailed, h]⟩

/-- C10 witness: a subscription whose counter is NaN (`none`) gets a
well-defined counter after `markAsFailed`. -/
theorem markAsFailed_total_in_failedAttempts_witness :
    ∃ k : Int, 1 ≤ k
      ∧ (Hydration.markAsFailed "boom"
          { isActive := true, failedAttempts := none
            lastError := none, lastNotificationSent := none }).failedAttempts = some k
      ∧ (Hydration.markAsFailed "boom"
          { isActive := true, failedAttempts := none
            lastError := none, lastNotificationSent := none }).isActive
          = (if k ≥ 5 then false else true) :=
  markAsFailed_total_in_failedAttempts _ "boom" (Or.inl rfl)

/-- C5: for every transport behaviour and every subscription list,
`sendBulkNotifications` returns exactly one outcome per subscription in
order, the outcome at position `i` is a function of subscription `i`
alone (so one subscription throwing cannot alter or suppress the
others' outcomes), and each outcome is either a success with a
transport status or a failure with an error message — no exception
escapes. -/
theorem sendBulkNotifications_settles_all {Sub : Type}
    (transport : Sub → Hydration.TransportReply) (vapidConfigured : Bool)
    (subs : List Sub) :
    (Hydration.sendBulkNotifications transport vapidConfigured subs).length = subs.length
    ∧ (∀ i : Nat,
        (Hydration.sendBulkNotifications transport vapidConfigured subs)[i]?
          = (subs[i]?).map fun s =>
              (s, Hydration.sendNotification transport vapidConfigured s))
    ∧ (Hydration.sendBulkNotifications transport vapidConfigured subs).all
        (fun r =>
          (r.2.success && r.2.statusCode.isSome && r.2.error.isNone)
            || (!r.2.success && r.2.error.isSome)) = true := by
  refine ⟨by simp [Hydration.sendBulkNotifications], ?_, ?_⟩
  · intro i
    simp [Hydration.sendBulkNotifications]
  · rw [List.all_eq_true]
    intro r hr
    rw [Hydration.sendBulkNotifications] at hr
    rcases List.mem_map.mp hr with ⟨s, _, rfl⟩
    by_cases hv : vapidConfigured <;> cases ht : transport s <;>
      simp [Hydration.sendNotification, hv, ht]

/-- C9 witness: a concrete disabled user is not due at hour 10,
minute 0, production mode. -/
theorem disabled_never_due_witness :
    Hydration.shouldReceiveNotificationAtHour
      { notificationsEnabled := false
        notificationStartHour := 9
        notificationEndHour := 17
        notificationFrequency := .oneHr } 10 0 false = false :=
  disabled_never_due _ rfl 10 0 false
